import Mathlib

/-!
# lvgl: notice popup scheduling, button states, icon table

Shallow embedding of

* `lv_app/lv_app_util/lv_app_notice.c` (`lv_app_notice_add`),
* `src/lv_objx/lv_btn.h` (state and style enumerations, `lv_btn_ext_t`),
* `lv_app/lv_icon/x2/img_battery_empty.c` (the pixel table).

The animation engine (`anim.c`), the object core (`lv_obj.c`) and the button
signal handler (`lv_btn.c`) are not among the sources; where a statement needs
them they are modelled from the specification and marked as such.
-/

namespace Lvgl

/-! ## Notice popup: data -/

/-- Build configuration: the macros of `lv_conf.h` and `lv_obj.h` that
`lv_app_notice_add` reads. Their values are not fixed by the sources, so they
are parameters. -/
structure lv_conf where
  LV_APP_EFFECT_ANIM : Int
  LV_APP_ANIM_NOTICE : Int
  LV_APP_EFFECT_OPA_ANIM : Int
  LV_APP_NOTICE_SHOW_TIME : Int
  OPA_TRANSP : Int
  OPA_COVER : Int
deriving DecidableEq, Repr

/-- The property mutators `lv_app_notice_add` stores in `anim_t.fp`. -/
inductive anim_fp_t where
  | lv_obj_set_opar
  | lv_obj_set_height
deriving DecidableEq, Repr

/-- The completion callbacks `lv_app_notice_add` stores in `anim_t.end_cb`. -/
inductive anim_cb_t where
  | lv_obj_del
deriving DecidableEq, Repr

/-- Argument of `anim_get_path`. -/
inductive anim_path_name_t where
  | ANIM_PATH_LIN
  | ANIM_PATH_STEP
deriving DecidableEq, Repr

/-- The path handle returned by `anim_get_path`; it is identified with the
name of the path it was asked for. -/
def anim_get_path (p : anim_path_name_t) : anim_path_name_t := p

/-- The fields of `anim_t` that `lv_app_notice_add` assigns. `var` is the
handle of the target object, a `NULL` function pointer is `none`. The C field
types are declared in `anim.h`, which is not among the sources; the numeric
fields are unbounded integers here (`end` and `repeat` are reserved words,
hence the trailing underscore). -/
structure anim_t where
  var : Nat
  fp : Option anim_fp_t
  end_cb : Option anim_cb_t
  path : anim_path_name_t
  start : Int
  end_ : Int
  time : Int
  act_time : Int
  playback : Nat
  playback_pause : Nat
  repeat_ : Nat
  repeat_pause : Nat
deriving DecidableEq, Repr

/-- Modelled from the spec: the fields of a display-tree node (`lv_obj_t`,
declared in the absent `lv_obj.h`) that the notice animations read and write:
its opacity and its height. -/
structure lv_obj_t where
  opa : Int
  height : Int
deriving DecidableEq, Repr

/-- Modelled from the spec: `lv_obj_get_opa` (absent `lv_obj.c`) reads the
node's opacity. -/
def lv_obj_get_opa (o : lv_obj_t) : Int := o.opa

/-- Modelled from the spec: `lv_obj_get_height` (absent `lv_obj.c`) reads the
node's height. -/
def lv_obj_get_height (o : lv_obj_t) : Int := o.height

/-! ## Notice popup: `lv_app_notice_add` -/

/-- `lv_app_notice_add` (lv_app_notice.c, lines 67-131), from line 86 on.

* `c` is the build configuration the preprocessor conditions test;
* `n` is the handle of the notice rectangle created at line 72 and `o` its
  state when line 85 has run (created, styled, fitted to the label, auto-fit
  switched off); lines 72-85 and line 104 only call functions of the object
  core on `n`, on the label and on `notice_h`;
* `a0` is the indeterminate content of the uninitialised local `anim_t a`.

The result is the sequence of descriptors passed to `anim_create`, in call
order. The file is compiled under `LV_APP_ENABLE != 0` only; the
configurations considered are those in which the function exists. -/
def lv_app_notice_add (c : lv_conf) (n : Nat) (o : lv_obj_t) (a0 : anim_t) : List anim_t :=
  if c.LV_APP_EFFECT_ANIM ≠ 0 ∧ c.LV_APP_ANIM_NOTICE ≠ 0 then
    let a : anim_t := { a0 with var := n }
    let a : anim_t := { a with path := anim_get_path .ANIM_PATH_LIN }
    let a : anim_t := { a with time := c.LV_APP_ANIM_NOTICE }
    let a : anim_t := { a with act_time := - c.LV_APP_NOTICE_SHOW_TIME }
    let a : anim_t := { a with playback := 0 }
    let a : anim_t := { a with playback_pause := 0 }
    let a : anim_t := { a with repeat_ := 0 }
    let a : anim_t := { a with repeat_pause := 0 }
    let a : anim_t := { a with end_cb := none }
    let r : anim_t × List anim_t :=
      if c.LV_APP_EFFECT_OPA_ANIM ≠ 0 then
        let a : anim_t := { a with fp := some .lv_obj_set_opar }
        let a : anim_t := { a with start := lv_obj_get_opa o }
        let a : anim_t := { a with end_ := c.OPA_TRANSP }
        let created : List anim_t := [a]
        let a : anim_t :=
          { a with act_time := - c.LV_APP_NOTICE_SHOW_TIME - c.LV_APP_ANIM_NOTICE }
        (a, created)
      else (a, [])
    let a : anim_t := r.1
    let a : anim_t := { a with fp := some .lv_obj_set_height }
    let a : anim_t := { a with start := lv_obj_get_height o }
    let a : anim_t := { a with end_ := 0 }
    let a : anim_t := { a with end_cb := some .lv_obj_del }
    r.2 ++ [a]
  else
    let a : anim_t := { a0 with var := n }
    let a : anim_t := { a with path := anim_get_path .ANIM_PATH_STEP }
    let a : anim_t := { a with time := c.LV_APP_ANIM_NOTICE }
    let a : anim_t :=
      { a with act_time := - c.LV_APP_NOTICE_SHOW_TIME + c.LV_APP_ANIM_NOTICE }
    let a : anim_t := { a with playback := 0 }
    let a : anim_t := { a with playback_pause := 0 }
    let a : anim_t := { a with repeat_ := 0 }
    let a : anim_t := { a with repeat_pause := 0 }
    let a : anim_t := { a with fp := some .lv_obj_set_height }
    let a : anim_t := { a with start := lv_obj_get_height o }
    let a : anim_t := { a with end_ := lv_obj_get_height o }
    let a : anim_t := { a with end_cb := some .lv_obj_del }
    [a]

/-- Finishing time of a task counted from its creation: the clock starts at
`act_time` and the task is ready when it reaches `time`. -/
def anim_finish (a : anim_t) : Int := a.time - a.act_time

/-- A sample configuration: animations and the opacity effect on, hold 1500 ms,
fade and collapse 200 ms. -/
def conf_full : lv_conf :=
  { LV_APP_EFFECT_ANIM := 1, LV_APP_ANIM_NOTICE := 200, LV_APP_EFFECT_OPA_ANIM := 1,
    LV_APP_NOTICE_SHOW_TIME := 1500, OPA_TRANSP := 0, OPA_COVER := 255 }

/-- A sample configuration: animations on, opacity effect compiled out. -/
def conf_no_opa : lv_conf :=
  { LV_APP_EFFECT_ANIM := 1, LV_APP_ANIM_NOTICE := 200, LV_APP_EFFECT_OPA_ANIM := 0,
    LV_APP_NOTICE_SHOW_TIME := 1500, OPA_TRANSP := 0, OPA_COVER := 255 }

/-- A sample configuration: animations compiled out. -/
def conf_no_anim : lv_conf :=
  { LV_APP_EFFECT_ANIM := 0, LV_APP_ANIM_NOTICE := 200, LV_APP_EFFECT_OPA_ANIM := 1,
    LV_APP_NOTICE_SHOW_TIME := 1500, OPA_TRANSP := 0, OPA_COVER := 255 }

/-- A sample notice node: opacity 204, fitted height 40. -/
def obj_sample : lv_obj_t := { opa := 204, height := 40 }

/-- A sample content of the uninitialised local descriptor. -/
def anim_garbage : anim_t :=
  { var := 77, fp := none, end_cb := some .lv_obj_del, path := .ANIM_PATH_STEP,
    start := -3, end_ := 9, time := 12, act_time := 5,
    playback := 1, playback_pause := 2, repeat_ := 1, repeat_pause := 4 }

/-! ## Animation engine (modelled from the specification) -/

/-- Modelled from the spec: the animation engine's `schedule(task)`
(`anim_create` of the absent `anim.c`) inserts the task into the registry of
active tasks. -/
def anim_create (anim_ll : List anim_t) (a : anim_t) : List anim_t := anim_ll ++ [a]

/-- Modelled from the spec: the state the animation engine (absent `anim.c`)
works on: the live nodes by handle (`none` is a destroyed node) and the
registry of active tasks. -/
structure anim_world where
  objs : Nat → Option lv_obj_t
  anim_ll : List anim_t

/-- Modelled from the spec: the easing paths of the absent `anim.c`, linear
and step. At clock `t` of a task of duration `time` the linear path gives
`start + (end - start) * t / time` (C division) and the step path stays at
`start`; both give `end` once the duration is reached. -/
def anim_path_value (a : anim_t) (t : Int) : Int :=
  match a.path with
  | .ANIM_PATH_LIN =>
    if a.time ≤ t then a.end_ else a.start + Int.tdiv ((a.end_ - a.start) * t) a.time
  | .ANIM_PATH_STEP =>
    if a.time ≤ t then a.end_ else a.start

/-- Modelled from the spec: applying a task's mutator to its target
(`lv_obj_set_opar` and `lv_obj_set_height` of the absent `lv_obj.c`): the
opacity, respectively the height, of the node becomes `v`. -/
def anim_apply_fp (objs : Nat → Option lv_obj_t) (a : anim_t) (v : Int) :
    Nat → Option lv_obj_t :=
  match a.fp, objs a.var with
  | some .lv_obj_set_opar, some o => Function.update objs a.var (some { o with opa := v })
  | some .lv_obj_set_height, some o => Function.update objs a.var (some { o with height := v })
  | _, _ => objs

/-- Modelled from the spec: `lv_obj_del` (absent `lv_obj.c`) destroys the
node: its handle becomes invalid. -/
def lv_obj_del (objs : Nat → Option lv_obj_t) (n : Nat) : Nat → Option lv_obj_t :=
  Function.update objs n none

/-- Modelled from the spec: one task during one `tick(elapsed_ms)` of the
absent `anim.c`. A task whose target was destroyed is dropped. Otherwise the
clock advances by `elapsed`; while it is negative nothing else happens; from
zero on the path value is applied through the mutator; on reaching the
duration a remaining repeat resets the task (after `repeat_pause`), else a set
playback reverses start and end and runs once more (after `playback_pause`),
else the completion callback is invoked and the task leaves the registry.
The result is the new node table and the task if it stays registered. -/
def anim_step (elapsed : Nat) (objs : Nat → Option lv_obj_t) (a : anim_t) :
    (Nat → Option lv_obj_t) × Option anim_t :=
  match objs a.var with
  | none => (objs, none)
  | some _ =>
    let t : Int := a.act_time + elapsed
    if t < 0 then (objs, some { a with act_time := t })
    else
      let objs1 := anim_apply_fp objs a (anim_path_value a t)
      if t < a.time then (objs1, some { a with act_time := t })
      else if a.repeat_ ≠ 0 then
        (objs1, some { a with repeat_ := a.repeat_ - 1, act_time := - (a.repeat_pause : Int) })
      else if a.playback ≠ 0 then
        (objs1, some { a with playback := 0, start := a.end_, end_ := a.start,
                              act_time := - (a.playback_pause : Int) })
      else
        match a.end_cb with
        | some .lv_obj_del => (lv_obj_del objs1 a.var, none)
        | none => (objs1, none)

/-- Modelled from the spec: one tick over the registry, every task advanced
by the same `elapsed`, in registry order. -/
def anim_tick_list (elapsed : Nat) (objs : Nat → Option lv_obj_t) :
    List anim_t → (Nat → Option lv_obj_t) × List anim_t
  | [] => (objs, [])
  | a :: rest =>
    let r := anim_step elapsed objs a
    let r2 := anim_tick_list elapsed r.1 rest
    (r2.1, match r.2 with
           | some a1 => a1 :: r2.2
           | none => r2.2)

/-- Modelled from the spec: `tick(elapsed_ms)` of the absent `anim.c`. Tasks
whose target was destroyed during the tick are cancelled (destroying a node
removes every task that targets it). -/
def anim_tick (elapsed : Nat) (w : anim_world) : anim_world :=
  let r := anim_tick_list elapsed w.objs w.anim_ll
  { objs := r.1, anim_ll := r.2.filter (fun a => (r.1 a.var).isSome) }

/-- A run of the engine: one tick per entry of `ds`, the entry being the
milliseconds elapsed since the previous tick. -/
def anim_run (w : anim_world) (ds : List Nat) : anim_world :=
  ds.foldl (fun w e => anim_tick e w) w

/-- The world right after `lv_app_notice_add`: node `n` is live with state `o`
and the registry holds the tasks the function created, in call order. -/
def notice_world (c : lv_conf) (n : Nat) (o : lv_obj_t) (a0 : anim_t)
    (objs : Nat → Option lv_obj_t) : anim_world :=
  { objs := Function.update objs n (some o),
    anim_ll := (lv_app_notice_add c n o a0).foldl anim_create [] }

/-- The fade task of a notice with duration `D`, its clock at `t`. -/
def notice_task_opa (c : lv_conf) (n : Nat) (o : lv_obj_t) (D t : Int) : anim_t :=
  { var := n, fp := some .lv_obj_set_opar, end_cb := none, path := .ANIM_PATH_LIN,
    start := o.opa, end_ := c.OPA_TRANSP, time := D, act_time := t,
    playback := 0, playback_pause := 0, repeat_ := 0, repeat_pause := 0 }

/-- The collapse task of a notice with duration `D`, its clock at `t`. -/
def notice_task_height (n : Nat) (o : lv_obj_t) (D t : Int) : anim_t :=
  { var := n, fp := some .lv_obj_set_height, end_cb := some .lv_obj_del,
    path := .ANIM_PATH_LIN, start := o.height, end_ := 0, time := D, act_time := t,
    playback := 0, playback_pause := 0, repeat_ := 0, repeat_pause := 0 }

/-- The state of the notice node after `T` ms of ticks, in closed form, for
hold `H` and fade and collapse duration `D`. -/
def notice_obj_at (c : lv_conf) (o : lv_obj_t) (H D T : Int) : Option lv_obj_t :=
  if T < H then some o
  else if T < H + D then
    some { opa := o.opa + Int.tdiv ((c.OPA_TRANSP - o.opa) * (T - H)) D, height := o.height }
  else if T < H + D + D then
    some { opa := c.OPA_TRANSP,
           height := o.height + Int.tdiv ((0 - o.height) * (T - H - D)) D }
  else none

/-- The registry after `T` ms of ticks, in closed form. -/
def notice_ll_at (c : lv_conf) (n : Nat) (o : lv_obj_t) (H D T : Int) : List anim_t :=
  if T < H + D then [notice_task_opa c n o D (T - H), notice_task_height n o D (T - H - D)]
  else if T < H + D + D then [notice_task_height n o D (T - H - D)]
  else []

/-- The single task of a notice in the no-animation configuration, for hold
`S` and `LV_APP_ANIM_NOTICE = D`, after `T` ms of ticks. -/
def notice_task_hold (n : Nat) (o : lv_obj_t) (S D T : Int) : anim_t :=
  { var := n, fp := some .lv_obj_set_height, end_cb := some .lv_obj_del,
    path := .ANIM_PATH_STEP, start := o.height, end_ := o.height, time := D,
    act_time := -S + D + T,
    playback := 0, playback_pause := 0, repeat_ := 0, repeat_pause := 0 }

/-- The notice node of the no-animation configuration after `T` ms of ticks,
in closed form. -/
def notice_hold_obj_at (o : lv_obj_t) (S T : Int) : Option lv_obj_t :=
  if T < S then some o else none

/-- The registry of the no-animation configuration after `T` ms of ticks, in
closed form. -/
def notice_hold_ll_at (n : Nat) (o : lv_obj_t) (S D T : Int) : List anim_t :=
  if T < S then [notice_task_hold n o S D T] else []

/-! ## Button: `lv_btn.h` -/

/-- Enumerators of the button state `enum` of `lv_btn.h`, in declaration
order. -/
inductive lv_btn_state_enum where
  | LV_BTN_STATE_REL
  | LV_BTN_STATE_PR
  | LV_BTN_STATE_TGL_REL
  | LV_BTN_STATE_TGL_PR
  | LV_BTN_STATE_INA
  | LV_BTN_STATE_NUM
deriving DecidableEq, Repr

/-- The declaration list of the state `enum`. -/
def lv_btn_state_decl : List lv_btn_state_enum :=
  [.LV_BTN_STATE_REL, .LV_BTN_STATE_PR, .LV_BTN_STATE_TGL_REL, .LV_BTN_STATE_TGL_PR,
   .LV_BTN_STATE_INA, .LV_BTN_STATE_NUM]

/-- Enumerators of the button style `enum` of `lv_btn.h`, in declaration
order. -/
inductive lv_btn_style_enum where
  | LV_BTN_STYLE_REL
  | LV_BTN_STYLE_PR
  | LV_BTN_STYLE_TGL_REL
  | LV_BTN_STYLE_TGL_PR
  | LV_BTN_STYLE_INA
deriving DecidableEq, Repr

/-- The declaration list of the style `enum`. -/
def lv_btn_style_decl : List lv_btn_style_enum :=
  [.LV_BTN_STYLE_REL, .LV_BTN_STYLE_PR, .LV_BTN_STYLE_TGL_REL, .LV_BTN_STYLE_TGL_PR,
   .LV_BTN_STYLE_INA]

/-- Value of an enumerator of a C `enum` without initialisers: the first is 0
and each next one is one more, so it is the position in the declaration. -/
def c_enum_value {α : Type} [DecidableEq α] (decl : List α) (x : α) : Nat :=
  decl.indexOf x

/-- The type `lv_btn_state_t` is `uint8_t`. -/
abbrev lv_btn_state_t : Type := Nat

/-- The type `lv_btn_style_t` is `uint8_t`. -/
abbrev lv_btn_style_t : Type := Nat

/-! The enumerators of both enumerations, by the rule of `c_enum_value`. -/

def LV_BTN_STATE_REL : lv_btn_state_t := c_enum_value lv_btn_state_decl .LV_BTN_STATE_REL
def LV_BTN_STATE_PR : lv_btn_state_t := c_enum_value lv_btn_state_decl .LV_BTN_STATE_PR
def LV_BTN_STATE_TGL_REL : lv_btn_state_t :=
  c_enum_value lv_btn_state_decl .LV_BTN_STATE_TGL_REL
def LV_BTN_STATE_TGL_PR : lv_btn_state_t := c_enum_value lv_btn_state_decl .LV_BTN_STATE_TGL_PR
def LV_BTN_STATE_INA : lv_btn_state_t := c_enum_value lv_btn_state_decl .LV_BTN_STATE_INA
def LV_BTN_STATE_NUM : Nat := c_enum_value lv_btn_state_decl .LV_BTN_STATE_NUM

def LV_BTN_STYLE_REL : lv_btn_style_t := c_enum_value lv_btn_style_decl .LV_BTN_STYLE_REL
def LV_BTN_STYLE_PR : lv_btn_style_t := c_enum_value lv_btn_style_decl .LV_BTN_STYLE_PR
def LV_BTN_STYLE_TGL_REL : lv_btn_style_t :=
  c_enum_value lv_btn_style_decl .LV_BTN_STYLE_TGL_REL
def LV_BTN_STYLE_TGL_PR : lv_btn_style_t := c_enum_value lv_btn_style_decl .LV_BTN_STYLE_TGL_PR
def LV_BTN_STYLE_INA : lv_btn_style_t := c_enum_value lv_btn_style_decl .LV_BTN_STYLE_INA

/-- The five states in declaration order. -/
def lv_btn_states : List lv_btn_state_t :=
  [LV_BTN_STATE_REL, LV_BTN_STATE_PR, LV_BTN_STATE_TGL_REL, LV_BTN_STATE_TGL_PR,
   LV_BTN_STATE_INA]

/-- The five style types in declaration order. -/
def lv_btn_style_types : List lv_btn_style_t :=
  [LV_BTN_STYLE_REL, LV_BTN_STYLE_PR, LV_BTN_STYLE_TGL_REL, LV_BTN_STYLE_TGL_PR,
   LV_BTN_STYLE_INA]

/-- The struct `lv_btn_ext_t` of `lv_btn.h`. `styles` is the array
`styles[LV_BTN_STATE_NUM]` of style pointers (a pointer is a number here),
`ink` the three times present under `LV_BTN_INK_EFFECT`, `state` the 3-bit
and `toggle` the 1-bit field. The ancestor part `cont` (type declared in the
absent `lv_cont.h`) is left out. -/
structure lv_btn_ext_t where
  styles : List Nat
  styles_len : styles.length = LV_BTN_STATE_NUM
  ink : Option (Nat × Nat × Nat)
  state : lv_btn_state_t
  toggle : Nat

/-- Input events a button receives from the input-device layer. -/
inductive lv_btn_input where
  | press
  | release
deriving DecidableEq, Repr

/-- Modelled from the spec: `lv_btn_set_state` (declared in `lv_btn.h`, body
in the absent `lv_btn.c`) stores the state in the 3-bit field. -/
def lv_btn_set_state (ext : lv_btn_ext_t) (state : lv_btn_state_t) : lv_btn_ext_t :=
  { ext with state := state % 2 ^ 3 }

/-- Modelled from the spec: `lv_btn_get_state` (body in the absent
`lv_btn.c`). -/
def lv_btn_get_state (ext : lv_btn_ext_t) : lv_btn_state_t := ext.state

/-- Modelled from the spec: the input-driven transitions of the button (the
signal handler of the absent `lv_btn.c`). INACTIVE suppresses every
transition. Toggle disabled: press goes to PRESSED, release while pressed to
RELEASED. Toggle enabled: press goes to PRESSED, press while toggled to
TOGGLED_PRESSED, release while pressed to TOGGLED_RELEASED, release while
toggled-pressed to TOGGLED_RELEASED. Anything else leaves the state.
The header documents `lv_btn_set_toggle` with "On release the button will
change from/to toggled state"; for release while toggled-pressed the explicit
transition of the specification is the one kept here. -/
def lv_btn_input_step (ext : lv_btn_ext_t) (ev : lv_btn_input) : lv_btn_ext_t :=
  if ext.state = LV_BTN_STATE_INA then ext
  else
    match ev with
    | .press =>
      if ext.toggle ≠ 0 ∧
          (ext.state = LV_BTN_STATE_TGL_REL ∨ ext.state = LV_BTN_STATE_TGL_PR) then
        lv_btn_set_state ext LV_BTN_STATE_TGL_PR
      else lv_btn_set_state ext LV_BTN_STATE_PR
    | .release =>
      if ext.state = LV_BTN_STATE_PR then
        if ext.toggle ≠ 0 then lv_btn_set_state ext LV_BTN_STATE_TGL_REL
        else lv_btn_set_state ext LV_BTN_STATE_REL
      else if ext.state = LV_BTN_STATE_TGL_PR ∧ ext.toggle ≠ 0 then
        lv_btn_set_state ext LV_BTN_STATE_TGL_REL
      else ext

/-- The states a button passes through under a sequence of inputs, one entry
per input. -/
def lv_btn_trace (ext : lv_btn_ext_t) : List lv_btn_input → List lv_btn_state_t
  | [] => []
  | ev :: evs =>
    lv_btn_get_state (lv_btn_input_step ext ev) :: lv_btn_trace (lv_btn_input_step ext ev) evs

/-- The button after a sequence of inputs. -/
def lv_btn_run (ext : lv_btn_ext_t) (evs : List lv_btn_input) : lv_btn_ext_t :=
  evs.foldl lv_btn_input_step ext

/-- A sample button: five style pointers, released, toggling off. -/
def btn_sample : lv_btn_ext_t :=
  { styles := [100, 101, 102, 103, 104], styles_len := rfl, ink := none,
    state := LV_BTN_STATE_REL, toggle := 0 }

/-! ## Icon table: `img_battery_empty.c` -/

/-- The type `color_int_t` at colour depth 16 is a 16-bit unsigned integer. -/
abbrev color_int_t : Type := Nat

/-- The array `img_battery_empty` of `img_battery_empty.c`, entry by entry. -/
def img_battery_empty : List color_int_t :=
  [32, 18, 16, 1,
   2016, 31727, 31695, 29614, 29614, 29614, 29614, 29614, 29614, 29614, 29614, 29614, 29614, 29614, 29614, 29614, 29614, 29614, 29614, 29614, 29614, 29614, 29614, 29614, 29614, 29614, 29614, 29614, 31695, 2016, 2016, 2016,
   27469, 14823, 21130, 23275, 23275, 23275, 23275, 23275, 23275, 23275, 23275, 23275, 23275, 23275, 23275, 23275, 23275, 23275, 23275, 23275, 23275, 23275, 23275, 23275, 23275, 23275, 23275, 21130, 12710, 25356, 2016, 2016,
   16904, 8452, 27469, 35953, 38066, 38066, 35953, 35921, 35921, 35921, 35921, 35921, 35921, 35921, 35921, 35921, 35921, 35921, 35921, 35921, 35921, 35921, 35921, 35921, 35921, 35953, 38034, 27501, 6371, 14823, 2016, 2016,
   10597, 6339, 35921, 48599, 42260, 42260, 46486, 48631, 48599, 48599, 48599, 48599, 48599, 48599, 48599, 48599, 48599, 48599, 48599, 48599, 48599, 48599, 48599, 48599, 48599, 48631, 52825, 38034, 6339, 8452, 2016, 2016,
   10597, 10565, 46518, 57051, 35921, 35921, 52857, 63390, 61309, 61309, 61309, 61309, 61309, 61309, 61309, 61309, 61309, 61309, 61309, 61309, 61309, 61309, 61309, 61309, 61309, 63390, 65535, 48631, 12678, 2145, 21162, 2016,
   10597, 10597, 52857, 59164, 27469, 25388, 54970, 65535, 65535, 65535, 65535, 65535, 65535, 65535, 65535, 65535, 65535, 65535, 65535, 65535, 65535, 65535, 65535, 65535, 65535, 65535, 65535, 54938, 14823, 0, 6371, 25356,
   10597, 12678, 52857, 54938, 14823, 14791, 50712, 65535, 65535, 65535, 65535, 65535, 65535, 65535, 65535, 65535, 65535, 65535, 65535, 65535, 65535, 65535, 65535, 65535, 65535, 65535, 65535, 54938, 14823, 0, 0, 14823,
   10597, 12678, 52857, 52857, 10565, 8484, 48599, 65535, 65535, 65535, 65535, 65535, 65535, 65535, 65535, 65535, 65535, 65535, 65535, 65535, 65535, 65535, 65535, 65535, 65535, 65535, 65535, 52857, 14823, 0, 0, 10565,
   10597, 12678, 52857, 52857, 10597, 10565, 48631, 65535, 65535, 65535, 65535, 65535, 65535, 65535, 65535, 65535, 65535, 65535, 65535, 65535, 65535, 65535, 65535, 65535, 65535, 65535, 65535, 52857, 14823, 0, 0, 10597,
   10597, 12678, 52857, 52857, 12678, 10565, 48631, 65535, 65535, 65535, 65535, 65535, 65535, 65535, 65535, 65535, 65535, 65535, 65535, 65535, 65535, 65535, 65535, 65535, 65535, 65535, 65535, 52857, 14823, 0, 0, 12678,
   10597, 12678, 52857, 52857, 12678, 10565, 48631, 65535, 65535, 65535, 65535, 65535, 65535, 65535, 65535, 65535, 65535, 65535, 65535, 65535, 65535, 65535, 65535, 65535, 65535, 65535, 65535, 52857, 14823, 0, 0, 12678,
   10597, 12678, 52857, 52857, 10597, 10565, 48599, 65535, 65535, 65535, 65535, 65535, 65535, 65535, 65535, 65535, 65535, 65535, 65535, 65535, 65535, 65535, 65535, 65535, 65535, 65535, 65535, 52857, 14823, 0, 0, 10597,
   10597, 12678, 52857, 52825, 8484, 8452, 48599, 65535, 65535, 65535, 65535, 65535, 65535, 65535, 65535, 65535, 65535, 65535, 65535, 65535, 65535, 65535, 65535, 65535, 65535, 65535, 65535, 52857, 16904, 0, 0, 8484,
   10597, 12678, 52857, 57051, 19049, 19017, 52825, 65535, 65535, 65535, 65535, 65535, 65535, 65535, 65535, 65535, 65535, 65535, 65535, 65535, 65535, 65535, 65535, 65535, 65535, 65535, 65535, 54938, 14823, 0, 32, 19017,
   10597, 10597, 52857, 63422, 42260, 40179, 61277, 65535, 65535, 65535, 65535, 65535, 65535, 65535, 65535, 65535, 65535, 65535, 65535, 65535, 65535, 65535, 65535, 65535, 65535, 65535, 65535, 54970, 14791, 2145, 21130, 2016,
   10597, 8452, 42292, 54938, 44405, 44373, 52857, 57083, 57083, 57083, 57083, 57083, 57083, 57083, 57083, 57083, 57083, 57083, 57083, 57083, 57083, 57083, 57083, 57083, 57083, 59164, 61277, 44405, 8484, 6339, 2016, 2016,
   10597, 32, 21162, 29614, 27501, 27501, 29614, 31695, 29614, 29614, 29614, 29614, 29614, 29614, 29614, 29614, 29614, 29614, 29614, 29614, 29614, 29614, 29614, 29614, 29614, 31695, 33808, 23243, 32, 8452, 2016, 2016,
   21130, 8484, 19017, 23275, 25356, 25356, 23275, 23275, 23275, 23275, 23275, 23275, 23275, 23275, 23275, 23275, 23275, 23275, 23275, 23275, 23275, 23275, 23275, 23275, 23275, 23275, 25356, 19017, 6371, 19017, 2016, 2016]

/-- The metadata of an icon table: its leading four entries. -/
def img_meta (img : List color_int_t) : List color_int_t := img.take 4

/-- The colour samples of an icon table: everything behind the metadata. -/
def img_samples (img : List color_int_t) : List color_int_t := img.drop 4

/-! ## Theorems: `lv_app_notice_add` -/

/-- C1: with animation and the opacity effect enabled, `lv_app_notice_add`
creates exactly two tasks on node `n`, in this order: the fade (mutator
`lv_obj_set_opar`, from the node's opacity to `OPA_TRANSP`, duration
`LV_APP_ANIM_NOTICE`, clock at `-LV_APP_NOTICE_SHOW_TIME`, no completion
callback) and the collapse (mutator `lv_obj_set_height`, from the node's height
to 0, same duration, clock at `-LV_APP_NOTICE_SHOW_TIME - LV_APP_ANIM_NOTICE`,
completion callback `lv_obj_del`); both linear, playback 0, repeat 0. -/
theorem notice_add_fade_then_collapse (c : lv_conf) (n : Nat) (o : lv_obj_t) (a0 : anim_t)
    (hA : c.LV_APP_EFFECT_ANIM ≠ 0) (hN : c.LV_APP_ANIM_NOTICE ≠ 0)
    (hO : c.LV_APP_EFFECT_OPA_ANIM ≠ 0) :
    lv_app_notice_add c n o a0 =
      [ { var := n, fp := some .lv_obj_set_opar, end_cb := none,
          path := anim_get_path .ANIM_PATH_LIN,
          start := lv_obj_get_opa o, end_ := c.OPA_TRANSP,
          time := c.LV_APP_ANIM_NOTICE, act_time := - c.LV_APP_NOTICE_SHOW_TIME,
          playback := 0, playback_pause := 0, repeat_ := 0, repeat_pause := 0 },
        { var := n, fp := some .lv_obj_set_height, end_cb := some .lv_obj_del,
          path := anim_get_path .ANIM_PATH_LIN,
          start := lv_obj_get_height o, end_ := 0,
          time := c.LV_APP_ANIM_NOTICE,
          act_time := - c.LV_APP_NOTICE_SHOW_TIME - c.LV_APP_ANIM_NOTICE,
          playback := 0, playback_pause := 0, repeat_ := 0, repeat_pause := 0 } ] := by
  simp [lv_app_notice_add, hA, hN, hO]

/-- C1 at a concrete configuration and node. -/
theorem notice_add_fade_then_collapse_witness :
    conf_full.LV_APP_EFFECT_ANIM ≠ 0 ∧ conf_full.LV_APP_ANIM_NOTICE ≠ 0 ∧
    conf_full.LV_APP_EFFECT_OPA_ANIM ≠ 0 ∧
    lv_app_notice_add conf_full 3 obj_sample anim_garbage =
      [ { var := 3, fp := some .lv_obj_set_opar, end_cb := none, path := .ANIM_PATH_LIN,
          start := 204, end_ := 0, time := 200, act_time := -1500,
          playback := 0, playback_pause := 0, repeat_ := 0, repeat_pause := 0 },
        { var := 3, fp := some .lv_obj_set_height, end_cb := some .lv_obj_del,
          path := .ANIM_PATH_LIN, start := 40, end_ := 0, time := 200, act_time := -1700,
          playback := 0, playback_pause := 0, repeat_ := 0, repeat_pause := 0 } ] :=
  ⟨by decide, by decide, by decide,
   notice_add_fade_then_collapse conf_full 3 obj_sample anim_garbage
     (by decide) (by decide) (by decide)⟩

/-- C3: with animation enabled and the opacity effect compiled out,
`lv_app_notice_add` creates exactly one task, the collapse: mutator
`lv_obj_set_height`, from the node's height to 0, completion callback
`lv_obj_del`, clock at `-LV_APP_NOTICE_SHOW_TIME`, so it starts right after the
hold. -/
theorem notice_add_collapse_only (c : lv_conf) (n : Nat) (o : lv_obj_t) (a0 : anim_t)
    (hA : c.LV_APP_EFFECT_ANIM ≠ 0) (hN : c.LV_APP_ANIM_NOTICE ≠ 0)
    (hO : c.LV_APP_EFFECT_OPA_ANIM = 0) :
    lv_app_notice_add c n o a0 =
      [ { var := n, fp := some .lv_obj_set_height, end_cb := some .lv_obj_del,
          path := anim_get_path .ANIM_PATH_LIN,
          start := lv_obj_get_height o, end_ := 0,
          time := c.LV_APP_ANIM_NOTICE, act_time := - c.LV_APP_NOTICE_SHOW_TIME,
          playback := 0, playback_pause := 0, repeat_ := 0, repeat_pause := 0 } ] := by
  simp [lv_app_notice_add, hA, hN, hO]

/-- C3 at a concrete configuration and node. -/
theorem notice_add_collapse_only_witness :
    conf_no_opa.LV_APP_EFFECT_ANIM ≠ 0 ∧ conf_no_opa.LV_APP_ANIM_NOTICE ≠ 0 ∧
    conf_no_opa.LV_APP_EFFECT_OPA_ANIM = 0 ∧
    lv_app_notice_add conf_no_opa 3 obj_sample anim_garbage =
      [ { var := 3, fp := some .lv_obj_set_height, end_cb := some .lv_obj_del,
          path := .ANIM_PATH_LIN, start := 40, end_ := 0, time := 200, act_time := -1500,
          playback := 0, playback_pause := 0, repeat_ := 0, repeat_pause := 0 } ] :=
  ⟨by decide, by decide, by decide,
   notice_add_collapse_only conf_no_opa 3 obj_sample anim_garbage
     (by decide) (by decide) (by decide)⟩

/-- C4, as stated, fails: with the opacity effect compiled out the number of
`anim_create` calls that target the new node is 1, neither 2 nor 3. -/
theorem notice_add_two_or_three_tasks_fails :
    ¬ (((lv_app_notice_add conf_no_opa 3 obj_sample anim_garbage).filter
          (fun a => a.var = 3)).length = 2 ∨
       ((lv_app_notice_add conf_no_opa 3 obj_sample anim_garbage).filter
          (fun a => a.var = 3)).length = 3) := by
  decide

/-- C4, amended: in every build configuration every created task targets the
new node and their number is 1 or 2; it is 2 exactly when animation and the
opacity effect are both enabled, and never 3. -/
theorem notice_add_one_or_two_tasks (c : lv_conf) (n : Nat) (o : lv_obj_t) (a0 : anim_t) :
    (∀ a ∈ lv_app_notice_add c n o a0, a.var = n) ∧
    ((lv_app_notice_add c n o a0).length = 1 ∨ (lv_app_notice_add c n o a0).length = 2) ∧
    ((lv_app_notice_add c n o a0).length = 2 ↔
      (c.LV_APP_EFFECT_ANIM ≠ 0 ∧ c.LV_APP_ANIM_NOTICE ≠ 0 ∧
        c.LV_APP_EFFECT_OPA_ANIM ≠ 0)) ∧
    (lv_app_notice_add c n o a0).length ≠ 3 := by
  by_cases hA : c.LV_APP_EFFECT_ANIM = 0 <;> by_cases hN : c.LV_APP_ANIM_NOTICE = 0 <;>
    by_cases hO : c.LV_APP_EFFECT_OPA_ANIM = 0 <;>
    simp [lv_app_notice_add, hA, hN, hO]

/-- C9: in every build configuration exactly one created task carries the
completion callback `lv_obj_del`, every created task targets the node, and,
when `LV_APP_ANIM_NOTICE` is not negative, the finishing time `time - act_time`
of that task is at least the finishing time of every created task. -/
theorem notice_add_delete_is_last (c : lv_conf) (n : Nat) (o : lv_obj_t) (a0 : anim_t)
    (hD : 0 ≤ c.LV_APP_ANIM_NOTICE) :
    ∃ d, (lv_app_notice_add c n o a0).filter (fun a => a.end_cb = some .lv_obj_del) = [d] ∧
      (∀ a ∈ lv_app_notice_add c n o a0, a.var = n) ∧
      (∀ a ∈ lv_app_notice_add c n o a0, anim_finish a ≤ anim_finish d) := by
  by_cases hA : c.LV_APP_EFFECT_ANIM = 0 <;> by_cases hN : c.LV_APP_ANIM_NOTICE = 0 <;>
    by_cases hO : c.LV_APP_EFFECT_OPA_ANIM = 0 <;>
    simp [lv_app_notice_add, hA, hN, hO, anim_finish]
  omega

/-- C9 at a concrete configuration and node: the collapse task is the one with
the callback and finishes at 1900, the fade at 1700. -/
theorem notice_add_delete_is_last_witness :
    (0 : Int) ≤ conf_full.LV_APP_ANIM_NOTICE ∧
    ∃ d, (lv_app_notice_add conf_full 3 obj_sample anim_garbage).filter
        (fun a => a.end_cb = some .lv_obj_del) = [d] ∧
      (∀ a ∈ lv_app_notice_add conf_full 3 obj_sample anim_garbage, a.var = 3) ∧
      (∀ a ∈ lv_app_notice_add conf_full 3 obj_sample anim_garbage,
        anim_finish a ≤ anim_finish d) :=
  ⟨by decide, notice_add_delete_is_last conf_full 3 obj_sample anim_garbage (by decide)⟩

/-- C10: in the no-animation configuration `lv_app_notice_add` creates exactly
one task: step path, start and end both the node's height, completion callback
`lv_obj_del`, duration `LV_APP_ANIM_NOTICE`, clock at
`-LV_APP_NOTICE_SHOW_TIME + LV_APP_ANIM_NOTICE`; its finishing time
`time - act_time` is `LV_APP_NOTICE_SHOW_TIME` whatever `LV_APP_ANIM_NOTICE`
is. -/
theorem notice_add_no_anim (c : lv_conf) (n : Nat) (o : lv_obj_t) (a0 : anim_t)
    (h : c.LV_APP_EFFECT_ANIM = 0 ∨ c.LV_APP_ANIM_NOTICE = 0) :
    lv_app_notice_add c n o a0 =
      [ { var := n, fp := some .lv_obj_set_height, end_cb := some .lv_obj_del,
          path := anim_get_path .ANIM_PATH_STEP,
          start := lv_obj_get_height o, end_ := lv_obj_get_height o,
          time := c.LV_APP_ANIM_NOTICE,
          act_time := - c.LV_APP_NOTICE_SHOW_TIME + c.LV_APP_ANIM_NOTICE,
          playback := 0, playback_pause := 0, repeat_ := 0, repeat_pause := 0 } ] ∧
    (∀ a ∈ lv_app_notice_add c n o a0,
      a.start = a.end_ ∧ anim_finish a = c.LV_APP_NOTICE_SHOW_TIME) := by
  have hc : ¬ (c.LV_APP_EFFECT_ANIM ≠ 0 ∧ c.LV_APP_ANIM_NOTICE ≠ 0) := by
    rcases h with h | h <;> simp [h]
  simp [lv_app_notice_add, hc, anim_finish]

/-- C10 at a concrete configuration and node: the finishing time is 1500. -/
theorem notice_add_no_anim_witness :
    (conf_no_anim.LV_APP_EFFECT_ANIM = 0 ∨ conf_no_anim.LV_APP_ANIM_NOTICE = 0) ∧
    lv_app_notice_add conf_no_anim 3 obj_sample anim_garbage =
      [ { var := 3, fp := some .lv_obj_set_height, end_cb := some .lv_obj_del,
          path := .ANIM_PATH_STEP, start := 40, end_ := 40, time := 200, act_time := -1300,
          playback := 0, playback_pause := 0, repeat_ := 0, repeat_pause := 0 } ] ∧
    (∀ a ∈ lv_app_notice_add conf_no_anim 3 obj_sample anim_garbage,
      a.start = a.end_ ∧ anim_finish a = 1500) :=
  ⟨by decide, notice_add_no_anim conf_no_anim 3 obj_sample anim_garbage (by decide)⟩

/-! ## Theorems: notice lifecycle under the modelled engine -/

/-- One tick of the modelled engine on a world that agrees with the closed form
at `T` ms gives a world that agrees with it at `T + e` ms, and leaves every
other node alone. -/
theorem notice_tick_step (c : lv_conf) (n : Nat) (o : lv_obj_t) (H D T : Int) (hD : 0 < D)
    (e : Nat) (w : anim_world)
    (hobj : w.objs n = notice_obj_at c o H D T)
    (hll : w.anim_ll = notice_ll_at c n o H D T) :
    (anim_tick e w).objs n = notice_obj_at c o H D (T + e) ∧
    (anim_tick e w).anim_ll = notice_ll_at c n o H D (T + e) ∧
    (∀ m, m ≠ n → (anim_tick e w).objs m = w.objs m) := by
  have c1 : T - H + (e : Int) = T + e - H := by ring
  have c2 : T - H - D + (e : Int) = T + e - H - D := by ring
  have k1 : (T + (e : Int) - H < 0) ↔ (T + e < H) := by omega
  have k2 : (T + (e : Int) - H < D) ↔ (T + e < H + D) := by omega
  have k3 : (T + (e : Int) - H - D < 0) ↔ (T + e < H + D) := by omega
  have k4 : (T + (e : Int) - H - D < D) ↔ (T + e < H + D + D) := by omega
  have k5 : (D ≤ T + (e : Int) - H) ↔ ¬ (T + e < H + D) := by omega
  have k6 : (D ≤ T + (e : Int) - H - D) ↔ ¬ (T + e < H + D + D) := by omega
  unfold notice_obj_at at hobj
  unfold notice_ll_at at hll
  by_cases t1 : T < H <;> by_cases t2 : T < H + D <;> by_cases t3 : T < H + D + D <;>
    by_cases g1 : T + (e : Int) < H <;> by_cases g2 : T + (e : Int) < H + D <;>
    by_cases g3 : T + (e : Int) < H + D + D <;>
    first
    | (exfalso; omega)
    | (simp only [t1, t2, t3, if_true, if_false] at hobj hll
       simp [anim_tick, anim_tick_list, anim_step, anim_apply_fp, anim_path_value, lv_obj_del,
         hobj, hll, notice_task_opa, notice_task_height,
         notice_obj_at, notice_ll_at, c1, c2, k1, k2, k3, k4, k5, k6, g1, g2, g3]
       first
       | done
       | (intro m hm; exact Function.update_noteq hm _ _))

/-- The world right after `lv_app_notice_add`, with animation and the opacity
effect enabled, agrees with the closed form at 0 ms. -/
theorem notice_world_init (c : lv_conf) (n : Nat) (o : lv_obj_t) (a0 : anim_t)
    (objs : Nat → Option lv_obj_t)
    (hA : c.LV_APP_EFFECT_ANIM ≠ 0) (hO : c.LV_APP_EFFECT_OPA_ANIM ≠ 0)
    (hH : 0 ≤ c.LV_APP_NOTICE_SHOW_TIME) (hD : 0 < c.LV_APP_ANIM_NOTICE) :
    (notice_world c n o a0 objs).objs n =
      notice_obj_at c o c.LV_APP_NOTICE_SHOW_TIME c.LV_APP_ANIM_NOTICE 0 ∧
    (notice_world c n o a0 objs).anim_ll =
      notice_ll_at c n o c.LV_APP_NOTICE_SHOW_TIME c.LV_APP_ANIM_NOTICE 0 := by
  have hN : c.LV_APP_ANIM_NOTICE ≠ 0 := by omega
  have h2 : (0 : Int) < c.LV_APP_NOTICE_SHOW_TIME + c.LV_APP_ANIM_NOTICE := by omega
  constructor
  · by_cases h0 : (0 : Int) < c.LV_APP_NOTICE_SHOW_TIME
    · simp [notice_world, notice_obj_at, h0]
    · have h00 : c.LV_APP_NOTICE_SHOW_TIME = 0 := by omega
      simp [notice_world, notice_obj_at, h00, hD]
  · simp [notice_world, notice_ll_at, lv_app_notice_add, anim_create, hA, hN, hO, h2,
      notice_task_opa, notice_task_height, anim_get_path, lv_obj_get_opa, lv_obj_get_height]

/-- A run of the modelled engine follows the closed form: after ticks that sum
to `ds.sum` ms a world that agreed with it at `T` agrees with it at
`T + ds.sum`. -/
theorem notice_run_closed_form (c : lv_conf) (n : Nat) (o : lv_obj_t) (H D : Int) (hD : 0 < D)
    (ds : List Nat) (T : Nat) (w : anim_world)
    (hobj : w.objs n = notice_obj_at c o H D T)
    (hll : w.anim_ll = notice_ll_at c n o H D T) :
    (anim_run w ds).objs n = notice_obj_at c o H D ((T + ds.sum : Nat) : Int) ∧
    (anim_run w ds).anim_ll = notice_ll_at c n o H D ((T + ds.sum : Nat) : Int) ∧
    (∀ m, m ≠ n → (anim_run w ds).objs m = w.objs m) := by
  induction ds generalizing T w with
  | nil => simpa [anim_run] using ⟨hobj, hll⟩
  | cons e es ih =>
    obtain ⟨s1, s2, s3⟩ := notice_tick_step c n o H D T hD e w hobj hll
    have s1' : (anim_tick e w).objs n = notice_obj_at c o H D ((T + e : Nat) : Int) := by
      rw [s1]; push_cast; rfl
    have s2' : (anim_tick e w).anim_ll = notice_ll_at c n o H D ((T + e : Nat) : Int) := by
      rw [s2]; push_cast; rfl
    obtain ⟨r1, r2, r3⟩ := ih (T + e) (anim_tick e w) s1' s2'
    have hsum : T + (e :: es).sum = T + e + es.sum := by simp [Nat.add_assoc]
    refine ⟨?_, ?_, ?_⟩
    · rw [hsum]; exact r1
    · rw [hsum]; exact r2
    · intro m hm
      have := r3 m hm
      simp only [anim_run, List.foldl_cons] at this ⊢
      rw [this, s3 m hm]

/-- C2: notice lifecycle for hold 1500 ms and fade = collapse = 200 ms with the
opacity effect enabled, under the modelled engine and any sequence of ticks,
`ds.sum` being the milliseconds elapsed: below 1500 the node is unchanged
(opacity and height at their start values); from 1500 to 1700 the opacity is
`start + (OPA_TRANSP - start) * (t - 1500) / 200` and the height is unchanged;
from 1700 up to 1900 the opacity is `OPA_TRANSP` and the height is
`start + (0 - start) * (t - 1700) / 200`; the node is destroyed exactly when
1900 ms have elapsed, and then no task is left in the registry. -/
theorem notice_lifecycle (c : lv_conf) (n : Nat) (o : lv_obj_t) (a0 : anim_t)
    (objs : Nat → Option lv_obj_t) (ds : List Nat)
    (hA : c.LV_APP_EFFECT_ANIM ≠ 0) (hO : c.LV_APP_EFFECT_OPA_ANIM ≠ 0)
    (hH : c.LV_APP_NOTICE_SHOW_TIME = 1500) (hD : c.LV_APP_ANIM_NOTICE = 200) :
    (ds.sum < 1500 →
      (anim_run (notice_world c n o a0 objs) ds).objs n = some o) ∧
    (1500 ≤ ds.sum → ds.sum ≤ 1700 →
      (anim_run (notice_world c n o a0 objs) ds).objs n =
        some { opa := o.opa + Int.tdiv ((c.OPA_TRANSP - o.opa) * ((ds.sum : Int) - 1500)) 200,
               height := o.height }) ∧
    (1700 ≤ ds.sum →  ds.sum < 1900 →
      (anim_run (notice_world c n o a0 objs) ds).objs n =
        some { opa := c.OPA_TRANSP,
               height := o.height + Int.tdiv ((0 - o.height) * ((ds.sum : Int) - 1700)) 200 }) ∧
    (1900 ≤ ds.sum ↔ (anim_run (notice_world c n o a0 objs) ds).objs n = none) ∧
    (1900 ≤ ds.sum → (anim_run (notice_world c n o a0 objs) ds).anim_ll = []) := by
  obtain ⟨i1, i2⟩ := notice_world_init c n o a0 objs hA hO (by omega) (by omega)
  obtain ⟨r1, r2, -⟩ := notice_run_closed_form c n o c.LV_APP_NOTICE_SHOW_TIME
    c.LV_APP_ANIM_NOTICE (by omega) ds 0 (notice_world c n o a0 objs)
    (by simpa using i1) (by simpa using i2)
  rw [hH, hD] at r1 r2
  simp only [Nat.zero_add] at r1 r2
  rw [r1, r2]
  generalize ds.sum = S
  have e1 : ∀ x : Int, x - 1500 - 200 = x - 1700 := fun x => by ring
  have e2 : (1500 : Int) + 200 = 1700 := by norm_num
  have e3 : (1700 : Int) + 200 = 1900 := by norm_num
  simp only [notice_obj_at, notice_ll_at, e1, e2, e3]
  refine ⟨?_, ?_, ?_, ?_, ?_⟩
  · intro h
    have h1 : (S : Int) < 1500 := by omega
    rw [if_pos h1]
  · intro h h'
    have h1 : ¬ (S : Int) < 1500 := by omega
    rw [if_neg h1]
    by_cases hb : S = 1700
    · subst hb
      have h2 : ¬ ((1700 : Nat) : Int) < 1700 := by omega
      have h3 : ((1700 : Nat) : Int) < 1900 := by omega
      have h4 : ((1700 : Nat) : Int) - 1500 = 200 := by omega
      have h5 : ((1700 : Nat) : Int) - 1700 = 0 := by omega
      rw [if_neg h2, if_pos h3, h4, h5, Int.mul_tdiv_cancel _ (by norm_num)]
      simp
    · have h2 : (S : Int) < 1700 := by omega
      rw [if_pos h2]
  · intro h h'
    have h1 : ¬ (S : Int) < 1500 := by omega
    have h2 : ¬ (S : Int) < 1700 := by omega
    have h3 : (S : Int) < 1900 := by omega
    rw [if_neg h1, if_neg h2, if_pos h3]
  · by_cases h1 : (S : Int) < 1500 <;> by_cases h2 : (S : Int) < 1700 <;>
      by_cases h3 : (S : Int) < 1900 <;>
      simp [h1, h2, h3] <;> omega
  · intro h
    have h2 : ¬ (S : Int) < 1700 := by omega
    have h3 : ¬ (S : Int) < 1900 := by omega
    rw [if_neg h2, if_neg h3]

/-- C2 at a concrete node and tick sequence: after 1000 + 550 ms the opacity
is 153 of 204 and the height is still 40. -/
theorem notice_lifecycle_witness :
    conf_full.LV_APP_EFFECT_ANIM ≠ 0 ∧ conf_full.LV_APP_EFFECT_OPA_ANIM ≠ 0 ∧
    conf_full.LV_APP_NOTICE_SHOW_TIME = 1500 ∧ conf_full.LV_APP_ANIM_NOTICE = 200 ∧
    (anim_run (notice_world conf_full 3 obj_sample anim_garbage (fun _ => none))
      [1000, 550]).objs 3 = some { opa := 153, height := 40 } :=
  ⟨by decide, by decide, by decide, by decide,
   (notice_lifecycle conf_full 3 obj_sample anim_garbage (fun _ => none) [1000, 550]
     (by decide) (by decide) (by decide) (by decide)).2.1 (by decide) (by decide)⟩

/-- With animation and the opacity effect enabled, a non-negative hold and a
positive duration: once the modelled engine has destroyed the notice node, no
task is left in the registry. -/
theorem notice_freed_registry_empty (c : lv_conf) (n : Nat) (o : lv_obj_t) (a0 : anim_t)
    (objs : Nat → Option lv_obj_t) (ds : List Nat)
    (hA : c.LV_APP_EFFECT_ANIM ≠ 0) (hO : c.LV_APP_EFFECT_OPA_ANIM ≠ 0)
    (hH : 0 ≤ c.LV_APP_NOTICE_SHOW_TIME) (hD : 0 < c.LV_APP_ANIM_NOTICE)
    (hfree : (anim_run (notice_world c n o a0 objs) ds).objs n = none) :
    (anim_run (notice_world c n o a0 objs) ds).anim_ll = [] := by
  obtain ⟨i1, i2⟩ := notice_world_init c n o a0 objs hA hO hH hD
  obtain ⟨r1, r2, -⟩ := notice_run_closed_form c n o c.LV_APP_NOTICE_SHOW_TIME
    c.LV_APP_ANIM_NOTICE hD ds 0 (notice_world c n o a0 objs)
    (by simpa using i1) (by simpa using i2)
  rw [r1] at hfree
  rw [r2]
  generalize ((0 + ds.sum : Nat) : Int) = X at hfree ⊢
  unfold notice_obj_at at hfree
  unfold notice_ll_at
  split_ifs at hfree ⊢
  rfl

/-- One tick of the modelled engine in the no-animation configuration keeps
the world in agreement with the closed form. -/
theorem notice_no_anim_tick_step (n : Nat) (o : lv_obj_t) (S D T : Int) (hD : 0 ≤ D)
    (e : Nat) (w : anim_world)
    (hobj : w.objs n = notice_hold_obj_at o S T)
    (hll : w.anim_ll = notice_hold_ll_at n o S D T) :
    (anim_tick e w).objs n = notice_hold_obj_at o S (T + e) ∧
    (anim_tick e w).anim_ll = notice_hold_ll_at n o S D (T + e) := by
  have c1 : -S + D + T + (e : Int) = -S + D + (T + e) := by ring
  have k1 : (D ≤ -S + D + (T + (e : Int))) ↔ ¬ (T + e < S) := by omega
  have k2 : (-S + D + (T + (e : Int)) < D) ↔ (T + e < S) := by omega
  unfold notice_hold_obj_at at hobj
  unfold notice_hold_ll_at at hll
  by_cases t1 : T < S <;> by_cases g1 : T + (e : Int) < S <;>
    by_cases g0 : -S + D + (T + (e : Int)) < 0 <;>
    first
    | (exfalso; omega)
    | (simp only [t1, if_true, if_false] at hobj hll
       simp [anim_tick, anim_tick_list, anim_step, anim_apply_fp, anim_path_value, lv_obj_del,
         hobj, hll, notice_task_hold, notice_hold_obj_at, notice_hold_ll_at,
         c1, k1, k2, g1, g0])

/-- Under the modelled engine, in the no-animation configuration with a
positive hold and a non-negative `LV_APP_ANIM_NOTICE`: the notice node is
untouched while less than `LV_APP_NOTICE_SHOW_TIME` ms have elapsed and is
destroyed, with an empty registry, from then on. -/
theorem notice_no_anim_deleted_at_show_time (c : lv_conf) (n : Nat) (o : lv_obj_t)
    (a0 : anim_t) (objs : Nat → Option lv_obj_t) (ds : List Nat)
    (h : c.LV_APP_EFFECT_ANIM = 0 ∨ c.LV_APP_ANIM_NOTICE = 0)
    (hS : 0 < c.LV_APP_NOTICE_SHOW_TIME) (hD : 0 ≤ c.LV_APP_ANIM_NOTICE) :
    ((ds.sum : Int) < c.LV_APP_NOTICE_SHOW_TIME →
      (anim_run (notice_world c n o a0 objs) ds).objs n = some o) ∧
    (c.LV_APP_NOTICE_SHOW_TIME ≤ (ds.sum : Int) →
      (anim_run (notice_world c n o a0 objs) ds).objs n = none ∧
      (anim_run (notice_world c n o a0 objs) ds).anim_ll = []) := by
  have hc : ¬ (c.LV_APP_EFFECT_ANIM ≠ 0 ∧ c.LV_APP_ANIM_NOTICE ≠ 0) := by
    rcases h with h | h <;> simp [h]
  have key : ∀ (es : List Nat) (T : Nat) (w : anim_world),
      w.objs n = notice_hold_obj_at o c.LV_APP_NOTICE_SHOW_TIME T →
      w.anim_ll = notice_hold_ll_at n o c.LV_APP_NOTICE_SHOW_TIME c.LV_APP_ANIM_NOTICE T →
      (anim_run w es).objs n =
        notice_hold_obj_at o c.LV_APP_NOTICE_SHOW_TIME ((T + es.sum : Nat) : Int) ∧
      (anim_run w es).anim_ll =
        notice_hold_ll_at n o c.LV_APP_NOTICE_SHOW_TIME c.LV_APP_ANIM_NOTICE
          ((T + es.sum : Nat) : Int) := by
    intro es
    induction es with
    | nil => intro T w h1 h2; simpa [anim_run] using ⟨h1, h2⟩
    | cons e es ih =>
      intro T w h1 h2
      obtain ⟨s1, s2⟩ := notice_no_anim_tick_step n o c.LV_APP_NOTICE_SHOW_TIME
        c.LV_APP_ANIM_NOTICE T hD e w h1 h2
      have hsum : T + (e :: es).sum = T + e + es.sum := by simp [Nat.add_assoc]
      rw [hsum]
      exact ih (T + e) (anim_tick e w) (by rw [s1]; push_cast; rfl) (by rw [s2]; push_cast; rfl)
  obtain ⟨r1, r2⟩ := key ds 0 (notice_world c n o a0 objs)
    (by simp [notice_world, notice_hold_obj_at, hS])
    (by simp [notice_world, notice_hold_ll_at, lv_app_notice_add, anim_create, hc, hS,
          notice_task_hold, anim_get_path, lv_obj_get_height])
  simp only [Nat.zero_add] at r1 r2
  rw [r1, r2]
  generalize (ds.sum : Int) = X
  simp only [notice_hold_obj_at, notice_hold_ll_at]
  constructor
  · intro hlt; rw [if_pos hlt]
  · intro hge
    have hn : ¬ X < c.LV_APP_NOTICE_SHOW_TIME := by omega
    rw [if_neg hn, if_neg hn]
    exact ⟨rfl, rfl⟩

/-! ## Theorems: button -/

/-- The numeric values of the state enumerators. -/
theorem lv_btn_state_values :
    LV_BTN_STATE_REL = 0 ∧ LV_BTN_STATE_PR = 1 ∧ LV_BTN_STATE_TGL_REL = 2 ∧
    LV_BTN_STATE_TGL_PR = 3 ∧ LV_BTN_STATE_INA = 4 ∧ LV_BTN_STATE_NUM = 5 := by
  decide

/-- The numeric values of the style enumerators. -/
theorem lv_btn_style_values :
    LV_BTN_STYLE_REL = 0 ∧ LV_BTN_STYLE_PR = 1 ∧ LV_BTN_STYLE_TGL_REL = 2 ∧
    LV_BTN_STYLE_TGL_PR = 3 ∧ LV_BTN_STYLE_INA = 4 := by
  decide

/-- One input on a button with toggling off that is released or pressed:
toggling stays off and the state stays released or pressed. -/
theorem lv_btn_input_step_no_toggle (ext : lv_btn_ext_t) (ev : lv_btn_input)
    (ht : ext.toggle = 0)
    (hs : ext.state = LV_BTN_STATE_REL ∨ ext.state = LV_BTN_STATE_PR) :
    (lv_btn_input_step ext ev).toggle = 0 ∧
    ((lv_btn_input_step ext ev).state = LV_BTN_STATE_REL ∨
      (lv_btn_input_step ext ev).state = LV_BTN_STATE_PR) := by
  obtain ⟨h0, h1, h2, h3, h4, -⟩ := lv_btn_state_values
  rw [h0, h1] at hs
  rw [h0, h1]
  cases ev <;> rcases hs with hs | hs <;>
    simp [lv_btn_input_step, lv_btn_set_state, ht, hs, h0, h1, h2, h3, h4]

/-- C6: a button with toggling disabled that is RELEASED or PRESSED stays, under
every finite sequence of press and release inputs, in RELEASED or PRESSED:
after every single input of the sequence and at its end. -/
theorem lv_btn_no_toggle_states (ext : lv_btn_ext_t) (evs : List lv_btn_input)
    (ht : ext.toggle = 0)
    (hs : ext.state = LV_BTN_STATE_REL ∨ ext.state = LV_BTN_STATE_PR) :
    (∀ s ∈ lv_btn_trace ext evs, s = LV_BTN_STATE_REL ∨ s = LV_BTN_STATE_PR) ∧
    ((lv_btn_run ext evs).state = LV_BTN_STATE_REL ∨
      (lv_btn_run ext evs).state = LV_BTN_STATE_PR) := by
  induction evs generalizing ext with
  | nil => exact ⟨by simp [lv_btn_trace], by simpa [lv_btn_run] using hs⟩
  | cons ev evs ih =>
    obtain ⟨ht1, hs1⟩ := lv_btn_input_step_no_toggle ext ev ht hs
    obtain ⟨ihT, ihR⟩ := ih (lv_btn_input_step ext ev) ht1 hs1
    refine ⟨?_, ?_⟩
    · intro s hmem
      simp only [lv_btn_trace, List.mem_cons] at hmem
      rcases hmem with rfl | hmem
      · exact hs1
      · exact ihT s hmem
    · simpa [lv_btn_run] using ihR

/-- C6 on the sample button and a sequence of six inputs. -/
theorem lv_btn_no_toggle_states_witness :
    btn_sample.toggle = 0 ∧
    (btn_sample.state = LV_BTN_STATE_REL ∨ btn_sample.state = LV_BTN_STATE_PR) ∧
    (∀ s ∈ lv_btn_trace btn_sample [.press, .press, .release, .release, .press, .release],
      s = LV_BTN_STATE_REL ∨ s = LV_BTN_STATE_PR) ∧
    ((lv_btn_run btn_sample
        [.press, .press, .release, .release, .press, .release]).state = LV_BTN_STATE_REL ∨
      (lv_btn_run btn_sample
        [.press, .press, .release, .release, .press, .release]).state = LV_BTN_STATE_PR) :=
  ⟨by decide, by decide,
   lv_btn_no_toggle_states btn_sample [.press, .press, .release, .release, .press, .release]
     (by decide) (by decide)⟩

/-- C7: each style enumerator has the value of the state enumerator of the same
case, the values are 0, 1, 2, 3, 4 in declaration order, each is below
`LV_BTN_STATE_NUM = 5`, which is the length of `styles`; so a state and a style
type both index `styles` in bounds, and those of the same case pick the same
slot. -/
theorem lv_btn_style_matches_state (ext : lv_btn_ext_t) :
    (LV_BTN_STYLE_REL = LV_BTN_STATE_REL ∧ LV_BTN_STYLE_PR = LV_BTN_STATE_PR ∧
      LV_BTN_STYLE_TGL_REL = LV_BTN_STATE_TGL_REL ∧
      LV_BTN_STYLE_TGL_PR = LV_BTN_STATE_TGL_PR ∧ LV_BTN_STYLE_INA = LV_BTN_STATE_INA) ∧
    lv_btn_states = [0, 1, 2, 3, 4] ∧ lv_btn_style_types = [0, 1, 2, 3, 4] ∧
    LV_BTN_STATE_NUM = 5 ∧ ext.styles.length = 5 ∧
    (∀ s ∈ lv_btn_states, s < LV_BTN_STATE_NUM ∧ s < ext.styles.length ∧ s < 2 ^ 3) ∧
    (∀ t ∈ lv_btn_style_types, t < LV_BTN_STATE_NUM ∧ t < ext.styles.length) ∧
    (∀ i : Fin 5, (ext.styles.get? (lv_btn_states.getD i 0)).isSome ∧
      ext.styles.get? (lv_btn_style_types.getD i 0) =
        ext.styles.get? (lv_btn_states.getD i 0)) := by
  have hlen : ext.styles.length = 5 := ext.styles_len
  have hst : lv_btn_states = [0, 1, 2, 3, 4] := by decide
  have hty : lv_btn_style_types = [0, 1, 2, 3, 4] := by decide
  refine ⟨by decide, hst, hty, by decide, hlen, ?_, ?_, ?_⟩
  · intro s hmem
    have hN : LV_BTN_STATE_NUM = 5 := by decide
    rw [hst] at hmem
    simp only [List.mem_cons, List.mem_singleton, List.not_mem_nil, or_false] at hmem
    rw [hN, hlen]
    rcases hmem with rfl | rfl | rfl | rfl | rfl <;> decide
  · intro t hmem
    have hN : LV_BTN_STATE_NUM = 5 := by decide
    rw [hty] at hmem
    simp only [List.mem_cons, List.mem_singleton, List.not_mem_nil, or_false] at hmem
    rw [hN, hlen]
    rcases hmem with rfl | rfl | rfl | rfl | rfl <;> decide
  · intro i
    rw [hst, hty]
    refine ⟨?_, rfl⟩
    have hlt : ([0, 1, 2, 3, 4] : List Nat).getD i 0 < ext.styles.length := by
      rw [hlen]
      fin_cases i <;> simp
    rw [List.get?_eq_get hlt]
    rfl

/-! ## Theorems: icon table -/

set_option maxRecDepth 100000 in
/-- C8: the table `img_battery_empty` starts with the metadata (width, height,
bit depth, flags) = (32, 18, 16, 1), followed by exactly width x height = 576
colour samples, 580 entries in all; every entry fits 16 bits. -/
theorem img_battery_empty_format :
    img_meta img_battery_empty = [32, 18, 16, 1] ∧
    img_battery_empty = img_meta img_battery_empty ++ img_samples img_battery_empty ∧
    (img_samples img_battery_empty).length =
      img_battery_empty.getD 0 0 * img_battery_empty.getD 1 0 ∧
    (img_samples img_battery_empty).length = 576 ∧
    img_battery_empty.length = 4 + 32 * 18 ∧
    img_battery_empty.length = 580 ∧
    (∀ x ∈ img_battery_empty, x < 2 ^ 16) := by
  refine ⟨rfl, rfl, rfl, rfl, rfl, rfl, ?_⟩
  decide

end Lvgl
